import Mathlib

/-!
# Verification of the multipath bonding core (`node/Bond.cpp`)

A shallow embedding of the `ZeroTier::Bond` engine.  Each definition below
translates one function (or one cohesive part of a function) of
`src/node/Bond.cpp` into an executable Lean function over an explicit
`Bond` state record.  Machine integers are modelled as `Int`/`Nat` with
explicit `% 2^w` reductions where the C++ code performs unsigned casts;
C++ `/` and `%` on signed ints are `Int.tdiv` / `Int.tmod`.  `std::map` is
modelled as an association list sorted in ascending key order (`std::map`
iterates in key order).

Entities that live in headers that are not part of the sources
(`Bond.hpp` / `Path.hpp` structures such as `Flow`, `NominatedPath`
helpers, the `RingBuffer`) are modelled from the spec and are marked
`Modelled from the spec:` in their doc comments.
-/

namespace BondSpec

/-! ## Constants (`Constants.hpp` values quoted by the spec, §6.4) -/

def ZT_MAX_PEER_NETWORK_PATHS : Nat := 16

def ZT_QOS_MAX_OUTSTANDING_RECORDS : Nat := 128

def ZT_QOS_ACK_DIVISOR : Int := 8

def ZT_QOS_NO_FLOW : Int := -1

def ZT_FLOW_MAX_COUNT : Nat := 65535

def ZT_BOND_OPTIMIZE_INTERVAL : Int := 15000

def ZT_BOND_FAILOVER_HANDICAP_PREFERRED : Int := 30

def ZT_BOND_FAILOVER_HANDICAP_PRIMARY : Int := 20

def ZT_BOND_FAILOVER_HANDICAP_NEGOTIATED : Int := 5000

def ZT_BOND_POLICY_NONE : Int := 0

def ZT_BOND_POLICY_ACTIVE_BACKUP : Int := 1

def ZT_BOND_POLICY_BROADCAST : Int := 2

def ZT_BOND_POLICY_BALANCE_RR : Int := 3

def ZT_BOND_POLICY_BALANCE_XOR : Int := 4

def ZT_BOND_POLICY_BALANCE_AWARE : Int := 5

def ZT_QOS_WEIGHT_SIZE : Nat := 6

/-! ## Ordered association lists (model of `std::map`)

`std::map` keeps its entries sorted by key and iterates in ascending key
order; the operations below maintain that order. -/

/-- `std::map::find` / `count`: look a key up. -/
def alook {V : Type} (k : Int) : List (Int × V) → Option V
  | [] => none
  | (k', v) :: t => if k = k' then some v else alook k t

/-- `std::map::operator[] = v`: insert or update, keeping ascending key order. -/
def ains {V : Type} (k : Int) (v : V) : List (Int × V) → List (Int × V)
  | [] => [(k, v)]
  | (k', v') :: t =>
    if k < k' then (k, v) :: (k', v') :: t
    else if k = k' then (k, v) :: t
    else (k', v') :: ains k v t

/-- `std::map::erase(key)`. -/
def aerase {V : Type} (k : Int) : List (Int × V) → List (Int × V)
  | [] => []
  | (k', v') :: t => if k = k' then t else (k', v') :: aerase k t

/-! ## Wire verbs (only the distinctions `Bond.cpp` makes) -/

/-- The packet verbs distinguished by `recordOutgoingPacket` /
`recordIncomingPacket`; every other verb behaves like `other`. -/
inductive Verb : Type
  | echo
  | frame
  | extFrame
  | ack
  | qosMeasurement
  | other
deriving DecidableEq

/-- `verb == VERB_ECHO || verb == VERB_FRAME || verb == VERB_EXT_FRAME`. -/
def isFrameVerb : Verb → Bool
  | .echo => true
  | .frame => true
  | .extFrame => true
  | _ => false

/-- Active-backup link reselection method (`ZT_BOND_RESELECTION_POLICY_*`). -/
inductive ReselMethod : Type
  | always
  | better
  | failure
  | optimize
deriving DecidableEq

/-! ## Data model -/

/-- A logical link (`Link`, `osdep/Link.hpp`).  Identified by `id`, which
stands for the interface name / the `SharedPtr<Link>` identity. -/
structure Link where
  id : Nat
  ipvPref : Nat := 0
  primary : Bool := false
  failoverTo : Option Nat := none
  speed : Nat := 0
deriving DecidableEq

/-- Modelled from the spec: a flow record (`Bond::Flow`, declared in
`Bond.hpp`, which is not part of the sources).  Attributes per §3.3:
32-bit flow ID, `assigned_path` slot index, byte counters,
`last_activity`, creation time.  A fresh `Flow(flowId, now)` has both
timestamps set to `now` and no assigned path yet (sentinel
`ZT_MAX_PEER_NETWORK_PATHS`). -/
structure Flow where
  id : Int
  assignedPath : Nat := ZT_MAX_PEER_NETWORK_PATHS
  lastActivity : Int
  createdAt : Int
  bytesIn : Nat := 0
  bytesOut : Nat := 0
deriving DecidableEq

/-- Modelled from the spec: `Flow::age(now)` (declared in `Bond.hpp`).
§4.4: the age-based branch of `forget_flows` evicts "every flow with
`now − last_activity > age`", i.e. `age(now) = now − last_activity`. -/
def Flow.age (f : Flow) (now : Int) : Int := now - f.lastActivity

/-- `Flow::assignPath(idx, now)`. -/
def Flow.assignPath (f : Flow) (idx : Nat) : Flow := { f with assignedPath := idx }

/-- `Flow::resetByteCounts()`. -/
def Flow.resetByteCounts (f : Flow) : Flow := { f with bytesIn := 0, bytesOut := 0 }

/-- One entry of the fixed 16-entry path-slot array (`Bond::NominatedPath`,
declared in `Bond.hpp`).  `p` is the owned `Path` handle: `some pid`
where `pid` stands for the `Path` pointer identity, `none` for an empty
slot.  `lastIn` is `Path::_lastIn`; `allowedFlag` / `preferredFlag` model
the pure predicates `NominatedPath::allowed()` / `preferred()` (declared
in the missing header; they depend only on the slot's static
enabled/IP-preference configuration, which none of the operations below
change, so they are carried as fields). -/
structure PathSlot where
  p : Option Nat := none
  linkId : Nat := 0
  lastIn : Int := 0
  whenNominated : Int := 0
  lastAliveToggle : Int := 0
  alive : Bool := false
  eligible : Bool := false
  bonded : Bool := false
  negotiated : Bool := false
  shouldReallocateFlows : Bool := false
  allowedFlag : Bool := true
  preferredFlag : Bool := false
  refractoryPeriod : Int := 0
  packetsIn : Nat := 0
  packetsOut : Nat := 0
  assignedFlowCount : Nat := 0
  allocation : Nat := 0
  affinity : Nat := 0
  failoverScore : Int := 0
  qosStatsOut : List (Int × Int) := []
  qosStatsIn : List (Int × Int) := []
  latencySamples : List Int := []
  packetValiditySamples : List Bool := []
  qosRecordSize : List Nat := []
  packetsReceivedSinceLastQoS : Nat := 0
deriving DecidableEq

/-- The empty path slot (a freshly value-initialized `NominatedPath`). -/
def emptySlot : PathSlot := {}

/-- `NominatedPath::allowed()`. -/
def PathSlot.allowed (s : PathSlot) : Bool := s.allowedFlag

/-- `NominatedPath::preferred()`. -/
def PathSlot.preferred (s : PathSlot) : Bool := s.preferredFlag

/-- `Path::age(now) = now − _lastIn`. -/
def PathSlot.pathAge (s : PathSlot) (now : Int) : Int := now - s.lastIn

/-- `NominatedPath::resetPacketCounts()`. -/
def PathSlot.resetPacketCounts (s : PathSlot) : PathSlot :=
  { s with packetsIn := 0, packetsOut := 0 }

/-- Modelled from the spec: `NominatedPath::adjustRefractoryPeriod(now,
limit, down)` (declared in `Bond.hpp`).  §4.1/glossary: when a path
loses eligibility its refractory period is extended (up to the default
limit); while eligible it drains back toward zero. -/
def PathSlot.adjustRefractoryPeriod (s : PathSlot) (limit : Int) (down : Bool) : PathSlot :=
  if down then { s with refractoryPeriod := limit } else { s with refractoryPeriod := 0 }

/-- The per-peer bond state (`Bond`, fields of `Bond.hpp`).  `paths` is the
16-entry slot array; `bondIdxMap` is the 16-entry `_bondIdxMap` array with
`ZT_MAX_PEER_NETWORK_PATHS` as the "unset" sentinel.  `links` models the
process-wide link registry restricted to this bond's policy alias
(`_interfaceToLinkMap[_policyAlias]`); a slot's `linkId` is what
`getLinkBySocket` resolves its local socket to. -/
structure Bond where
  policy : Int := ZT_BOND_POLICY_NONE
  allowFlowHashing : Bool := false
  paths : List PathSlot := List.replicate ZT_MAX_PEER_NETWORK_PATHS emptySlot
  bondIdxMap : List Nat := List.replicate ZT_MAX_PEER_NETWORK_PATHS ZT_MAX_PEER_NETWORK_PATHS
  numBondedPaths : Nat := 0
  flows : List (Int × Flow) := []
  rrIdx : Nat := 0
  rrPacketsSentOnCurrLink : Nat := 0
  packetsPerLink : Nat := 0
  freeRandomByte : Nat := 0
  abPathIdx : Nat := ZT_MAX_PEER_NETWORK_PATHS
  abFailoverQueue : List Nat := []
  abLinkSelectMethod : ReselMethod := .optimize
  lastActiveBackupPathChange : Int := 0
  negotiatedPathIdx : Nat := ZT_MAX_PEER_NETWORK_PATHS
  localUtility : Int := 0
  lastPathNegotiationCheck : Int := 0
  peerId : Int := 0
  localNodeId : Int := 0
  links : List Link := []
  userHasSpecifiedLinks : Bool := false
  userHasSpecifiedPrimaryLink : Bool := false
  userHasSpecifiedFailoverInstructions : Bool := false
  failoverInterval : Int := 5000
  downDelay : Int := 0
  upDelay : Int := 0
  defaultPathRefractoryPeriod : Int := 8000
  numAliveLinks : Nat := 0
  numTotalLinks : Nat := 0
  isHealthy : Bool := false
  totalBondUnderload : Nat := 0
  lastFrame : Int := 0
  lastFlowExpirationCheck : Int := 0
  qw : List ℚ := [3/10, 1/10, 3/10, 1/10, 1/10, 1/10]
deriving DecidableEq

/-- Read slot `i` of the path array (out-of-range reads the empty slot). -/
def Bond.path (b : Bond) (i : Nat) : PathSlot := (b.paths.get? i).getD emptySlot

/-- Write slot `i` of the path array. -/
def Bond.setPath (b : Bond) (i : Nat) (s : PathSlot) : Bond :=
  { b with paths := b.paths.set i s }

/-- Update slot `i` of the path array. -/
def Bond.modPath (b : Bond) (i : Nat) (f : PathSlot → PathSlot) : Bond :=
  b.setPath i (f (b.path i))

/-- Read entry `i` of `_bondIdxMap` (sentinel when out of range). -/
def Bond.bondIdx (b : Bond) (i : Nat) : Nat :=
  (b.bondIdxMap.get? i).getD ZT_MAX_PEER_NETWORK_PATHS

/-- `getLinkBySocket(_policyAlias, localSocket)` for the path in slot `i`:
resolve the slot's interface to its registered `Link`. -/
def Bond.linkOfSlot (b : Bond) (i : Nat) : Option Link :=
  b.links.find? (fun l => l.id == (b.path i).linkId)

/-- `getLinkByName(_policyAlias, name)`. -/
def Bond.linkById (b : Bond) (lid : Nat) : Option Link :=
  b.links.find? (fun l => l.id == lid)

/-- `getNominatedPathIdx(path)` (declared in `Bond.hpp`): the index of the
slot owning `path`, or `ZT_MAX_PEER_NETWORK_PATHS` if unknown. -/
def Bond.getNominatedPathIdx (b : Bond) (pid : Nat) : Nat :=
  ((List.range ZT_MAX_PEER_NETWORK_PATHS).find?
      (fun i => (b.path i).p == some pid)).getD ZT_MAX_PEER_NETWORK_PATHS

/-! ## `Bond::setBondParameters` and `Bond::setUserQualityWeights` -/

/-- `Bond::setBondParameters(policy, templateBond, useTemplate)`.  The two
lines at the top sanitize the static `_defaultPolicy` and then set
`_policy` from it: an in-range `policy` argument stores the (sanitized)
default policy, an out-of-range one stores `ZT_BOND_POLICY_NONE`.
`defaultPolicy` is the static `Bond::_defaultPolicy`; passing
`templateBond = some t` is `useTemplate = true`.  Floating-point quality
weights are modelled as rationals. -/
def setBondParameters (policy : Int) (defaultPolicy : Int) (templateBond : Option Bond) : Bond :=
  let dp := if defaultPolicy ≤ ZT_BOND_POLICY_NONE ∨ ZT_BOND_POLICY_BALANCE_AWARE < defaultPolicy
            then ZT_BOND_POLICY_NONE else defaultPolicy
  let pol := if policy ≤ ZT_BOND_POLICY_NONE ∨ ZT_BOND_POLICY_BALANCE_AWARE < policy
             then ZT_BOND_POLICY_NONE else dp
  let b : Bond :=
    { policy := pol,
      allowFlowHashing := pol == ZT_BOND_POLICY_BALANCE_XOR || pol == ZT_BOND_POLICY_BALANCE_AWARE,
      packetsPerLink := if pol == ZT_BOND_POLICY_BALANCE_RR then 64 else 0,
      abLinkSelectMethod := .optimize,
      downDelay := if pol == ZT_BOND_POLICY_BROADCAST then 30000 else 0,
      upDelay := 0,
      abPathIdx := ZT_MAX_PEER_NETWORK_PATHS,
      rrPacketsSentOnCurrLink := 0,
      rrIdx := 0,
      numBondedPaths := 0,
      localUtility := 0,
      totalBondUnderload := 0,
      qw := [3/10, 1/10, 3/10, 1/10, 1/10, 1/10],
      failoverInterval := 5000,
      defaultPathRefractoryPeriod := 8000 }
  match templateBond with
  | none => b
  | some t =>
    { b with
      failoverInterval := if t.failoverInterval ≥ 250 then t.failoverInterval else 250,
      downDelay := t.downDelay,
      upDelay := t.upDelay,
      abLinkSelectMethod := t.abLinkSelectMethod,
      qw := t.qw }

/-- `Bond::setUserQualityWeights(weights, len)`: replace `_qw` only when
given exactly `ZT_QOS_WEIGHT_SIZE` weights whose total is strictly
between 0.99 and 1.01; otherwise leave the bond untouched. -/
def setUserQualityWeights (b : Bond) (weights : List ℚ) : Bond :=
  if weights.length = ZT_QOS_WEIGHT_SIZE then
    let weightTotal := weights.sum
    if 99/100 < weightTotal ∧ weightTotal < 101/100 then { b with qw := weights } else b
  else b

/-! ## `Bond::receivedQoS` -/

/-- The body of the record loop of `Bond::receivedQoS`: look the egress
time of `rec.1` up in the outstanding map; on a hit, push
`((uint16_t)(now − sent_at) − holding_time) / 2` as a latency sample
(the unsigned-16-bit cast is `% 65536`, the C++ `/` on `int` is
`Int.tdiv`) and erase the entry; on a miss do nothing. -/
def receivedQoSRecord (now : Int) (slot : PathSlot) (rec : Int × Int) : PathSlot :=
  match alook rec.1 slot.qosStatsOut with
  | some sentAt =>
    { slot with
      latencySamples := slot.latencySamples ++ [Int.tdiv ((now - sentAt) % 65536 - rec.2) 2],
      qosStatsOut := aerase rec.1 slot.qosStatsOut }
  | none => slot

/-- `Bond::receivedQoS(path, now, count, rx_id, rx_ts)`: on a nominated
path, process every `(packet_id, holding_time)` record and push the
record count.  The latency-sample ring buffers (`RingBuffer`,
`osdep/RingBuffer.hpp`, not in the sources) are modelled as lists with
`push` appending at the end. -/
def receivedQoS (b : Bond) (pid : Nat) (now : Int) (records : List (Int × Int)) : Bond :=
  let pathIdx := b.getNominatedPathIdx pid
  if pathIdx = ZT_MAX_PEER_NETWORK_PATHS then b
  else
    let slot := records.foldl (receivedQoSRecord now) (b.path pathIdx)
    b.setPath pathIdx { slot with qosRecordSize := slot.qosRecordSize ++ [records.length] }

/-! ## `Bond::processIncomingPathNegotiationRequest` -/

/-- `Bond::processIncomingPathNegotiationRequest(now, path,
remoteUtility)`.  Only processed under the `optimize` link-select method,
on a known (nominated) path, and once `_lastPathNegotiationCheck` is
nonzero.  `peerId` / `localNodeId` are the 40-bit identity addresses of
the remote peer and the local node. -/
def processIncomingPathNegotiationRequest (b : Bond) (pid : Nat) (remoteUtility : Int) : Bond :=
  if b.abLinkSelectMethod ≠ ReselMethod.optimize then b
  else
    let pathIdx := b.getNominatedPathIdx pid
    if pathIdx = ZT_MAX_PEER_NETWORK_PATHS then b
    else if b.lastPathNegotiationCheck = 0 then b
    else if remoteUtility > b.localUtility then { b with negotiatedPathIdx := pathIdx }
    else if remoteUtility < b.localUtility then b
    else if b.peerId > b.localNodeId then { b with negotiatedPathIdx := pathIdx }
    else b

/-! ## Flow table: `forgetFlowsWhenNecessary`, `assignFlowToBondedPath`, `createFlow` -/

/-- `_paths[idx].assignedFlowCount--` (saturating at 0: the counter never
goes below zero at any call site, every decrement is paired with a flow
that was counted on that slot). -/
def Bond.decFlowCount (b : Bond) (i : Nat) : Bond :=
  b.modPath i (fun s => { s with assignedFlowCount := s.assignedFlowCount - 1 })

/-- `_paths[idx].assignedFlowCount++`. -/
def Bond.incFlowCount (b : Bond) (i : Nat) : Bond :=
  b.modPath i (fun s => { s with assignedFlowCount := s.assignedFlowCount + 1 })

/-- The `age`-driven branch of `Bond::forgetFlowsWhenNecessary`: walk the
flow map in key order and erase every flow whose `age(now)` exceeds
`age`, decrementing the assigned-flow count of its slot. -/
def forgetFlowsAge (b : Bond) (age now : Int) : Bond :=
  b.flows.foldl
    (fun acc kv =>
      if kv.2.age now > age then
        let acc1 := acc.decFlowCount kv.2.assignedPath
        { acc1 with flows := aerase kv.1 acc1.flows }
      else acc)
    b

/-- The `oldest` scan of `Bond::forgetFlowsWhenNecessary`: `maxAge` starts
at 0; each flow whose `age(now)` exceeds the current `maxAge` becomes the
candidate, and `maxAge` is then set to `now − age(now)` (sic: the code
stores a timestamp, not an age — kept verbatim).  Returns the candidate
entry, if any. -/
def oldestFlowScan (flows : List (Int × Flow)) (now : Int) : Option (Int × Flow) :=
  (flows.foldl
    (fun st kv => if kv.2.age now > st.1 then (now - kv.2.age now, some kv) else st)
    ((0 : Int), (none : Option (Int × Flow)))).2

/-- The effect of one `forgetFlowsAge` iteration on the flow map alone
(used to characterize the eviction loop). -/
def ageStep (age now : Int) (fl : List (Int × Flow)) (kv : Int × Flow) : List (Int × Flow) :=
  if kv.2.age now > age then aerase kv.1 fl else fl

/-- `Bond::forgetFlowsWhenNecessary(age, oldest, now)`: remove by age when
`age` is nonzero (C++ `if (age)`), else remove the single flow the
`maxAge` scan selects when `oldest` is set. -/
def forgetFlowsWhenNecessary (b : Bond) (age : Int) (oldest : Bool) (now : Int) : Bond :=
  if age ≠ 0 then forgetFlowsAge b age now
  else if oldest then
    match oldestFlowScan b.flows now with
    | some kv =>
      let b1 := b.decFlowCount kv.2.assignedPath
      { b1 with flows := aerase kv.1 b1.flows }
    | none => b
  else b

/-- The walk of the `balance-aware` branch of `assignFlowToBondedPath`:
traverse the slots in index order, subtracting each bonded slot's
probability segment (`affinity` under bond-wide underload, else
`allocation`) from the entropy until the entropy fits in a segment; that
slot is chosen (`ZT_MAX_PEER_NETWORK_PATHS` when the walk falls through). -/
def awareWalk (b : Bond) (entropy : Nat) : Nat :=
  (((List.range ZT_MAX_PEER_NETWORK_PATHS).foldl
    (fun st i =>
      match st with
      | (some idx, e) => (some idx, e)
      | (none, e) =>
        let s := b.path i
        if s.p.isSome && s.bonded then
          let seg := if b.totalBondUnderload > 0 then s.affinity else s.allocation
          if e ≤ seg then (some i, e) else (none, e - seg)
        else (none, e))
    ((none : Option Nat), entropy)).1).getD ZT_MAX_PEER_NETWORK_PATHS

/-- `Bond::assignFlowToBondedPath(flow, now)`.  The flow is the map entry
with key `fid` (the C++ mutates the shared flow object in place; here the
map entry is rewritten).  `entropy` is the secure-random byte the
`balance-aware` branch draws.  In the `balance-xor` branch the C++
computes `abs((int)(flow->id % _numBondedPaths))` where the `int32_t`
flow ID is converted to `unsigned int` by the `%` against the unsigned
`_numBondedPaths`, so the index is `(id mod 2^32) mod numBondedPaths`.
Returns whether an assignment was made, as the C++ `bool` does. -/
def assignFlowToBondedPath (b : Bond) (fid : Int) (entropy : Nat) (now : Int) : Bool × Bond :=
  match alook fid b.flows with
  | none => (false, b)
  | some flow =>
    if b.policy = ZT_BOND_POLICY_BALANCE_XOR then
      let idx : Nat := (fid % 4294967296).toNat % b.numBondedPaths
      let slotIdx := b.bondIdx idx
      let b1 := { b with flows := ains fid (flow.assignPath slotIdx) b.flows }
      (true, b1.incFlowCount slotIdx)
    else if b.policy = ZT_BOND_POLICY_BALANCE_AWARE then
      let e1 := if b.totalBondUnderload ≠ 0 then entropy % b.totalBondUnderload else entropy
      if b.numBondedPaths = 0 then (false, b)
      else
        let totalIncompleteAllocation :=
          ((List.range ZT_MAX_PEER_NETWORK_PATHS).map
            (fun i => if (b.path i).p.isSome && (b.path i).bonded then (b.path i).allocation else 0)).sum
        let e2 := e1 % totalIncompleteAllocation
        let idx := awareWalk b e2
        if idx < ZT_MAX_PEER_NETWORK_PATHS then
          let b1 := { b with flows := ains fid (flow.assignPath idx) b.flows }
          (true, b1.incFlowCount idx)
        else (false, b)
    else if b.policy = ZT_BOND_POLICY_ACTIVE_BACKUP then
      (true, { b with flows := ains fid (flow.assignPath b.abPathIdx) b.flows })
    else (true, b)

/-- `Bond::createFlow(pathIdx, flowId, entropy, now)`: refuse when the
bond has no links; evict when the flow table is full; insert a fresh
`Flow(flowId, now)`; pin it to `pathIdx` when a path is provided (packet
just arrived on it), else balance it with `assignFlowToBondedPath`.
The `Bool` is whether a flow was created (the C++ null check). -/
def createFlow (b : Bond) (pathIdx : Nat) (flowId : Int) (entropy : Nat) (now : Int) : Bool × Bond :=
  if b.numBondedPaths = 0 then (false, b)
  else
    let b1 := if b.flows.length ≥ ZT_FLOW_MAX_COUNT then forgetFlowsWhenNecessary b 0 true now else b
    let fresh : Flow := { id := flowId, lastActivity := now, createdAt := now }
    let b2 := { b1 with flows := ains flowId fresh b1.flows }
    if pathIdx ≠ ZT_MAX_PEER_NETWORK_PATHS then
      let b3 := { b2 with flows := ains flowId (fresh.assignPath pathIdx) b2.flows }
      (true, b3.incFlowCount pathIdx)
    else
      (true, (assignFlowToBondedPath b2 flowId entropy now).2)

/-! ## Hot path: `recordOutgoingPacket`, `recordIncomingPacket`, `getAppropriatePath` -/

/-- The flow-byte accounting at the end of `Bond::recordOutgoingPacket`:
`_flows[flowId]->bytesOut += payloadLength` when flow hashing is on and
the packet names a flow already in the table. -/
def outFlowBytes (b : Bond) (flowId : Int) (payloadLength : Nat) : Bond :=
  if b.allowFlowHashing && flowId != ZT_QOS_NO_FLOW then
    match alook flowId b.flows with
    | some f => { b with flows := ains flowId { f with bytesOut := f.bytesOut + payloadLength } b.flows }
    | none => b
  else b

/-- `(packetId & (ZT_QOS_ACK_DIVISOR − 1)) && verb != VERB_ACK && verb !=
VERB_QOS_MEASUREMENT` — whether the packet takes part in QoS
accounting. -/
def shouldRecordB (packetId : Int) (verb : Verb) : Bool :=
  (packetId % ZT_QOS_ACK_DIVISOR != 0) && (verb != Verb.ack) && (verb != Verb.qosMeasurement)

/-- The guarded insertion into the outstanding-ack map
(`recordOutgoingPacket`): record the egress time unless the map already
holds `ZT_QOS_MAX_OUTSTANDING_RECORDS` entries. -/
def qosOutInsert (packetId now : Int) (s : PathSlot) : PathSlot :=
  if s.qosStatsOut.length < ZT_QOS_MAX_OUTSTANDING_RECORDS
  then { s with qosStatsOut := ains packetId now s.qosStatsOut }
  else s

/-- `_freeRandomByte += (unsigned char)(packetId >> 8)` (wraps at 256). -/
def bumpFreeRandomByte (b : Bond) (packetId : Int) : Bond :=
  { b with freeRandomByte := (b.freeRandomByte + ((packetId / 256) % 256).toNat) % 256 }

/-- `_lastFrame = now`. -/
def setLastFrame (b : Bond) (now : Int) : Bond := { b with lastFrame := now }

/-- The body of `Bond::recordOutgoingPacket` after the entropy grab: on a
nominated path, count outgoing frames, record the QoS expectation
(bounded), and account flow bytes.  An unknown path returns early,
skipping the flow-byte accounting, as the C++ `return` does. -/
def recordOutgoingCore (b : Bond) (pid : Nat) (packetId : Int) (payloadLength : Nat)
    (verb : Verb) (flowId : Int) (now : Int) : Bond :=
  if isFrameVerb verb || shouldRecordB packetId verb then
    let pathIdx := b.getNominatedPathIdx pid
    if pathIdx = ZT_MAX_PEER_NETWORK_PATHS then b
    else
      let b1 := if isFrameVerb verb
        then setLastFrame (b.modPath pathIdx (fun s => { s with packetsOut := s.packetsOut + 1 })) now
        else b
      let b2 := if shouldRecordB packetId verb
        then b1.modPath pathIdx (qosOutInsert packetId now)
        else b1
      outFlowBytes b2 flowId payloadLength
  else outFlowBytes b flowId payloadLength

/-- `Bond::recordOutgoingPacket(path, packetId, payloadLength, verb,
flowId, now)`.  `packetId` is the unsigned 64-bit packet ID. -/
def recordOutgoingPacket (b : Bond) (pid : Nat) (packetId : Int) (payloadLength : Nat)
    (verb : Verb) (flowId : Int) (now : Int) : Bond :=
  recordOutgoingCore (bumpFreeRandomByte b packetId) pid packetId payloadLength verb flowId now

/-- The flow-learning tail of `Bond::recordIncomingPacket`: under a
balance policy, a classified packet creates (or finds) its flow and adds
the payload to its inbound byte count. -/
def inFlowLearn (b : Bond) (pathIdx : Nat) (flowId : Int) (payloadLength : Nat) (now : Int) : Bond :=
  if flowId != ZT_QOS_NO_FLOW
      && (b.policy == ZT_BOND_POLICY_BALANCE_RR || b.policy == ZT_BOND_POLICY_BALANCE_XOR
          || b.policy == ZT_BOND_POLICY_BALANCE_AWARE) then
    match alook flowId b.flows with
    | some f => { b with flows := ains flowId { f with bytesIn := f.bytesIn + payloadLength } b.flows }
    | none =>
      let (ok, b1) := createFlow b pathIdx flowId 0 now
      if ok then
        match alook flowId b1.flows with
        | some f => { b1 with flows := ains flowId { f with bytesIn := f.bytesIn + payloadLength } b1.flows }
        | none => b1
      else b1
  else b

/-- `Bond::recordIncomingPacket(path, packetId, payloadLength, verb,
flowId, now)`.  On a nominated path: toggle `lastAliveToggle` for a
previously-dead path, count frames, and for QoS-eligible packets record
the arrival time in `qosStatsIn` — with no bound check — then learn the
flow. -/
def recordIncomingPacket (b : Bond) (pid : Nat) (packetId : Int) (payloadLength : Nat)
    (verb : Verb) (flowId : Int) (now : Int) : Bond :=
  let isFrame := isFrameVerb verb
  let shouldRecord := shouldRecordB packetId verb
  let pathIdx := b.getNominatedPathIdx pid
  if pathIdx = ZT_MAX_PEER_NETWORK_PATHS then b
  else
    let b1 := if !(b.path pathIdx).alive
      then b.modPath pathIdx (fun s => { s with lastAliveToggle := now })
      else b
    let b2 :=
      if (isFrame || shouldRecord) && (b1.path pathIdx).allowed then
        let b1a := if isFrame
          then setLastFrame (b1.modPath pathIdx (fun s => { s with packetsIn := s.packetsIn + 1 })) now
          else b1
        if shouldRecord then
          b1a.modPath pathIdx (fun s =>
            { s with qosStatsIn := ains packetId now s.qosStatsIn,
                     packetsReceivedSinceLastQoS := s.packetsReceivedSinceLastQoS + 1,
                     packetValiditySamples := s.packetValiditySamples ++ [true] })
        else b1a
      else b1
    inFlowLearn b2 pathIdx flowId payloadLength now

/-- The next-eligible-slot search of the `balance-rr` stripe advance
(`getAppropriatePath`): step `_tempIdx` cyclically through the bonded
index space up to `_numBondedPaths − 1` times and stop at the first entry
whose mapped slot exists and is eligible; `none` leaves `_rrIdx` as it
was. -/
def rrSearch (b : Bond) : Option Nat :=
  (((List.range (b.numBondedPaths - 1)).foldl
    (fun st _ =>
      match st with
      | (some r, t) => (some r, t)
      | (none, t) =>
        let t1 := if t = b.numBondedPaths - 1 then 0 else t + 1
        if (b.bondIdx t1 != ZT_MAX_PEER_NETWORK_PATHS)
            && (b.path (b.bondIdx t1)).p.isSome && (b.path (b.bondIdx t1)).eligible
        then (some t1, t1) else (none, t1))
    ((none : Option Nat), b.rrIdx)).1)

/-- `Bond::getAppropriatePath(now, flowId)`: returns the selected path
(by identity) and the updated bond.  `entropy` is the secure-random byte
drawn when a new flow must be created. -/
def getAppropriatePath (b : Bond) (now : Int) (flowId : Int) (entropy : Nat) : Option Nat × Bond :=
  if b.policy = ZT_BOND_POLICY_ACTIVE_BACKUP
      ∧ b.abPathIdx ≠ ZT_MAX_PEER_NETWORK_PATHS ∧ (b.path b.abPathIdx).p.isSome then
    ((b.path b.abPathIdx).p, b)
  else if b.policy = ZT_BOND_POLICY_BROADCAST then (none, b)
  else if b.numBondedPaths = 0 then (none, b)
  else if b.policy = ZT_BOND_POLICY_BALANCE_RR ∧ ¬b.allowFlowHashing then
    if b.packetsPerLink = 0 then
      ((b.path (b.bondIdx (b.freeRandomByte % b.numBondedPaths))).p, b)
    else if b.rrPacketsSentOnCurrLink < b.packetsPerLink then
      ((b.path (b.bondIdx b.rrIdx)).p,
       { b with rrPacketsSentOnCurrLink := b.rrPacketsSentOnCurrLink + 1 })
    else
      let b1 := { b with rrPacketsSentOnCurrLink := 0 }
      let b2 :=
        if b1.numBondedPaths = 1 ∨ b1.rrIdx ≥ ZT_MAX_PEER_NETWORK_PATHS - 1 then
          { b1 with rrIdx := 0 }
        else
          match rrSearch b1 with
          | some r => { b1 with rrIdx := r }
          | none => b1
      if (b2.path (b2.bondIdx b2.rrIdx)).p.isSome then
        ((b2.path (b2.bondIdx b2.rrIdx)).p, b2)
      else (none, b2)
  else if b.policy = ZT_BOND_POLICY_BALANCE_XOR ∨ b.policy = ZT_BOND_POLICY_BALANCE_AWARE then
    if ¬b.allowFlowHashing ∨ flowId = ZT_QOS_NO_FLOW then
      ((b.path (b.bondIdx (b.freeRandomByte % b.numBondedPaths))).p, b)
    else
      match alook flowId b.flows with
      | some f =>
        let b1 := { b with flows := ains flowId { f with lastActivity := now } b.flows }
        ((b1.path f.assignedPath).p, b1)
      | none =>
        let (ok, b1) := createFlow b ZT_MAX_PEER_NETWORK_PATHS flowId entropy now
        if ok then
          match alook flowId b1.flows with
          | some f => ((b1.path f.assignedPath).p, b1)
          | none => (none, b1)
        else (none, b1)
  else (none, b)

/-! ## `Bond::curateBond` -/

/-- One iteration of the state-variable loop of `Bond::curateBond` for an
occupied slot: recompute `alive` and the current eligibility, handle an
eligibility transition (a slot that loses eligibility gets its
refractory period extended; a bonded one additionally has `bonded`
cleared and — under flow hashing — `shouldReallocateFlows` assigned from
the just-cleared `bonded` field, verbatim from the code), and store the
new eligibility.  Returns the updated slot and whether this slot asks
for a rebuild. -/
def curateSlot (failoverInterval downDelay upDelay drp : Int) (allowFlowHashing : Bool)
    (now : Int) (st : PathSlot) : PathSlot × Bool :=
  let st := { st with alive := (now - st.lastIn) < failoverInterval }
  let acceptableAge := st.pathAge now < (failoverInterval + downDelay)
  let satisfiedUpDelay := (now - st.lastAliveToggle) ≥ upDelay
  let inTrial := (now - st.whenNominated) < ZT_BOND_OPTIMIZE_INTERVAL
  let currEligibility := st.allowed && ((acceptableAge && satisfiedUpDelay) || inTrial)
  let (st, rebuild) :=
    if currEligibility ≠ st.eligible then
      if !currEligibility then
        let st := st.adjustRefractoryPeriod drp true
        if st.bonded then
          let st := { st with bonded := false }
          if allowFlowHashing then
            ({ st with shouldReallocateFlows := st.bonded }, true)
          else (st, false)
        else (st, false)
      else (st, true)
    else (st, false)
  let st := if currEligibility then st.adjustRefractoryPeriod drp false else st
  ({ st with eligible := currEligibility }, rebuild)

/-- The first half of `Bond::curateBond`: run `curateSlot` over every
occupied slot, counting total links and (by the pre-update eligibility,
as the code does) alive links, and collecting the rebuild request.
Returns the updated bond, the accumulated `rebuildBond` flag and the two
counters. -/
def curatePass (b : Bond) (now : Int) (rebuildBond : Bool) : Bond × Bool × Nat × Nat :=
  (List.range ZT_MAX_PEER_NETWORK_PATHS).foldl
    (fun st i =>
      let (acc, rebuild, aliveL, totalL) := st
      if (acc.path i).p.isSome then
        let aliveL := if (acc.path i).eligible then aliveL + 1 else aliveL
        let (slot, r) := curateSlot acc.failoverInterval acc.downDelay acc.upDelay
            acc.defaultPathRefractoryPeriod acc.allowFlowHashing now (acc.path i)
        (acc.setPath i slot, rebuild || r, aliveL, totalL + 1)
      else st)
    (b, rebuildBond, 0, 0)

/-- `Bond::addPathToBond(nominatedIdx, bondedIdx)`. -/
def addPathToBond (b : Bond) (nominatedIdx bondedIdx : Nat) : Bond :=
  let b := { b with bondIdxMap := b.bondIdxMap.set bondedIdx nominatedIdx }
  b.modPath nominatedIdx (fun s => { s with bonded := true })

/-- Ascending insertion into a sorted list of naturals. -/
def insertSortedNat (x : Nat) : List Nat → List Nat
  | [] => [x]
  | y :: t => if x ≤ y then x :: y :: t else y :: insertSortedNat x t

/-- Ascending insertion sort (the order `std::map` iterates keys in, and
the order the failover-queue insertion sort produces). -/
def sortNat (l : List Nat) : List Nat := l.foldr insertSortedNat []

/-- The per-link body of the bond-rebuild step of `Bond::curateBond`:
given the running `(bond, bonded count)` and the slots nominated on one
link, add paths according to the IP-version preference of that link.
The `prefer v4/v6` case falls back to any eligible path on the link when
no preferred one was added (the fallback pass checks only occupancy and
eligibility, as the code does). -/
def rebuildAddLink (bc : Bond × Nat) (lid : Nat) (slotIdxs : List Nat) : Bond × Nat :=
  let b := bc.1
  let ipvPref := ((b.linkById lid).map Link.ipvPref).getD 0
  if ipvPref = 0 then
    slotIdxs.foldl
      (fun bc idx =>
        if (bc.1.path idx).p.isSome && (bc.1.path idx).allowed
        then (addPathToBond bc.1 idx bc.2, bc.2 + 1) else bc) bc
  else if ipvPref = 4 ∨ ipvPref = 6 then
    slotIdxs.foldl
      (fun bc idx =>
        if (bc.1.path idx).p.isSome && (bc.1.path idx).allowed && (bc.1.path idx).eligible
        then (addPathToBond bc.1 idx bc.2, bc.2 + 1) else bc) bc
  else if ipvPref = 46 ∨ ipvPref = 64 then
    let bc1 := slotIdxs.foldl
      (fun bc idx =>
        if (bc.1.path idx).p.isSome && (bc.1.path idx).eligible
            && (bc.1.path idx).preferred && (bc.1.path idx).allowed
        then (addPathToBond bc.1 idx bc.2, bc.2 + 1) else bc) bc
    if bc1.2 = bc.2 then
      slotIdxs.foldl
        (fun bc idx =>
          if (bc.1.path idx).p.isSome && (bc.1.path idx).eligible
          then (addPathToBond bc.1 idx bc.2, bc.2 + 1) else bc) bc1
    else bc1
  else bc

/-- The bond-rebuild step of `Bond::curateBond` (balance policies):
group the occupied slots by link and re-add paths link by link.  The C++
iterates a `std::map` keyed by `SharedPtr<Link>` (pointer order, which
the program does not control); the model iterates links in ascending
link-id order.  Ends by publishing the new bonded count and, under
`balance-rr`, forcing a stripe recomputation. -/
def rebuildBondSet (b : Bond) : Bond :=
  let present := (List.range ZT_MAX_PEER_NETWORK_PATHS).filter (fun i => (b.path i).p.isSome)
  let lids := sortNat ((present.map (fun i => (b.path i).linkId)).dedup)
  let bc := lids.foldl
    (fun bc lid => rebuildAddLink bc lid (present.filter (fun i => (b.path i).linkId = lid)))
    (b, 0)
  let b1 := { bc.1 with numBondedPaths := bc.2 }
  if b1.policy = ZT_BOND_POLICY_BALANCE_RR
  then { b1 with rrPacketsSentOnCurrLink := b1.packetsPerLink }
  else b1

/-- `Bond::curateBond(now, rebuildBond)`: update the per-slot state
variables, publish the link health counters and, under a balance policy,
rebuild the bonded set when asked to (or when the bond is empty). -/
def curateBond (b : Bond) (now : Int) (rebuildBond : Bool) : Bond :=
  let (b1, rebuild, aliveL, totalL) := curatePass b now rebuildBond
  let healthy :=
    if b1.policy = ZT_BOND_POLICY_ACTIVE_BACKUP then decide (aliveL ≥ 2)
    else if b1.policy = ZT_BOND_POLICY_BROADCAST then decide (aliveL ≥ 1)
    else if b1.policy = ZT_BOND_POLICY_BALANCE_RR ∨ b1.policy = ZT_BOND_POLICY_BALANCE_XOR
        ∨ b1.policy = ZT_BOND_POLICY_BALANCE_AWARE then decide (¬(aliveL < totalL))
    else true
  let b2 := { b1 with numAliveLinks := aliveL, numTotalLinks := totalL, isHealthy := healthy }
  if b2.policy = ZT_BOND_POLICY_BALANCE_RR ∨ b2.policy = ZT_BOND_POLICY_BALANCE_XOR
      ∨ b2.policy = ZT_BOND_POLICY_BALANCE_AWARE then
    if rebuild ∨ b2.numBondedPaths = 0 then rebuildBondSet b2 else b2
  else b2

/-! ## `Bond::processBalanceTasks` -/

/-- `ZT_PEER_PATH_EXPIRATION` (`Constants.hpp`, not in the sources; no
theorem depends on its value). -/
def ZT_PEER_PATH_EXPIRATION : Int := 59000

/-- The inner flow loop of the dead-path reallocation in
`Bond::processBalanceTasks`: every flow whose assigned slot holds the
same path as dead slot `i` is re-balanced, and each successful
re-assignment decrements the dead slot's count. -/
def reallocDeadSlot (b : Bond) (i : Nat) (entropy : Nat) (now : Int) : Bond :=
  b.flows.foldl
    (fun acc kv =>
      match alook kv.1 acc.flows with
      | none => acc
      | some f =>
        if (acc.path f.assignedPath).p == (acc.path i).p then
          let (ok, acc1) := assignFlowToBondedPath acc kv.1 entropy now
          if ok then acc1.decFlowCount i else acc1
        else acc)
    b

/-- The inner flow loop of the under-performing reallocation in
`Bond::processBalanceTasks`.  The C++ guard compares the integer
`flow->assignedPath` against the `SharedPtr<Path>` `_paths[i].p`, which
goes through the implicit bool conversion: the flow is moved iff its
slot index equals 1 exactly when slot `i` holds a path (modelled
verbatim). -/
def reallocUnderperfSlot (b : Bond) (i : Nat) (entropy : Nat) (now : Int) : Bond :=
  b.flows.foldl
    (fun acc kv =>
      match alook kv.1 acc.flows with
      | none => acc
      | some f =>
        if f.assignedPath = (if (acc.path i).p.isSome then 1 else 0) then
          let (ok, acc1) := assignFlowToBondedPath acc kv.1 entropy now
          if ok then acc1.decFlowCount i else acc1
        else acc)
    b

/-- `Bond::processBalanceTasks(now)`.  Under flow hashing: periodically
expire flows and reset their byte counters; under `balance-xor` /
`balance-aware` re-allocate the flows of every ineligible slot flagged
`shouldReallocateFlows`; under `balance-aware` additionally re-allocate
from under-performing bonded slots (threshold
`(uint8_t)(0.33 * totalAllocation / numBondedPaths)`, floats modelled as
rationals).  `entropy` is the secure-random byte drawn per
`balance-aware` assignment. -/
def processBalanceTasks (b : Bond) (now : Int) (entropy : Nat) : Bond :=
  if ¬b.allowFlowHashing then b
  else
    let b1 :=
      if (now - b.lastFlowExpirationCheck) > ZT_PEER_PATH_EXPIRATION then
        let ba := forgetFlowsWhenNecessary b ZT_PEER_PATH_EXPIRATION false now
        { ba with flows := ba.flows.map (fun kv => (kv.1, kv.2.resetByteCounts)),
                  lastFlowExpirationCheck := now }
      else b
    let b2 :=
      if b1.policy = ZT_BOND_POLICY_BALANCE_XOR ∨ b1.policy = ZT_BOND_POLICY_BALANCE_AWARE then
        (List.range ZT_MAX_PEER_NETWORK_PATHS).foldl
          (fun acc i =>
            if (acc.path i).p.isSome then
              if !(acc.path i).eligible && (acc.path i).shouldReallocateFlows then
                let acc1 := reallocDeadSlot acc i entropy now
                acc1.modPath i (fun s => { s with shouldReallocateFlows := false })
              else acc
            else acc)
          b1
      else b1
    if b2.policy = ZT_BOND_POLICY_BALANCE_AWARE then
      let totalAllocation :=
        ((List.range ZT_MAX_PEER_NETWORK_PATHS).map
          (fun i => if (b2.path i).p.isSome && (b2.path i).bonded && (b2.path i).eligible
                    then (b2.path i).allocation else 0)).sum
      let minimumAllocationValue : Nat :=
        (((33 : ℚ)/100 * ((totalAllocation : ℚ) / (b2.numBondedPaths : ℚ))).floor).toNat % 256
      (List.range ZT_MAX_PEER_NETWORK_PATHS).foldl
        (fun acc i =>
          if (acc.path i).p.isSome then
            if (acc.path i).bonded && (acc.path i).eligible
                && decide ((acc.path i).allocation < minimumAllocationValue)
                && (acc.path i).assignedFlowCount != 0 then
              let acc1 := reallocUnderperfSlot acc i entropy now
              acc1.modPath i (fun s => { s with shouldReallocateFlows := false })
            else acc
          else acc)
        b2
    else b2

/-! ## Active backup: `dequeueNextActiveBackupPath`, `processActiveBackupTasks` -/

/-- `Bond::dequeueNextActiveBackupPath(now)`: pop the failover-queue head
into `_abPathIdx`, record the change time, and reset every occupied
slot's packet counters. -/
def dequeueNextActiveBackupPath (b : Bond) (now : Int) : Bond :=
  match b.abFailoverQueue with
  | [] => b
  | h :: t =>
    let b1 := { b with abPathIdx := h, abFailoverQueue := t, lastActiveBackupPathChange := now }
    (List.range ZT_MAX_PEER_NETWORK_PATHS).foldl
      (fun acc i => if (acc.path i).p.isSome then acc.modPath i PathSlot.resetPacketCounts else acc)
      b1

/-- The initial active-link selection of `Bond::processActiveBackupTasks`
(runs only while `_abPathIdx` is unset).  In manual-primary mode the C++
reads the local `nonPreferredPathIdx` even when the loop never assigned
it (spec §9 flags this); the model treats that unassigned read as 0, so
the post-loop `if (bFoundPrimaryLink && nonPreferredPathIdx)` does not
fire — the only resolution-dependent case, and one no theorem relies
on. -/
def abSelectInitial (b : Bond) : Bond :=
  if b.abPathIdx ≠ ZT_MAX_PEER_NETWORK_PATHS then b
  else if ¬b.userHasSpecifiedLinks then
    match (List.range ZT_MAX_PEER_NETWORK_PATHS).find?
        (fun i => (b.path i).p.isSome && (b.path i).eligible && (b.linkOfSlot i).isSome) with
    | some i => { b with abPathIdx := i }
    | none => b
  else if b.userHasSpecifiedPrimaryLink then
    let scan := (List.range ZT_MAX_PEER_NETWORK_PATHS).foldl
      (fun st i =>
        let (abIdx, nonPref, found, stop) := st
        if stop then st
        else if (b.path i).p.isSome && (b.path i).eligible
            && (((b.linkOfSlot i).map Link.primary).getD false) then
          if (b.path i).preferred then (some i, nonPref, true, true)
          else (abIdx, i, true, false)
        else st)
      ((none : Option Nat), (0 : Nat), false, false)
    let b1 := match scan.1 with
      | some i => { b with abPathIdx := i }
      | none => b
    if scan.2.2.1 && scan.2.1 != 0 then { b1 with abPathIdx := scan.2.1 } else b1
  else
    match (List.range ZT_MAX_PEER_NETWORK_PATHS).find?
        (fun i => (b.path i).p.isSome && (b.path i).eligible) with
    | some i => { b with abPathIdx := i }
    | none => b

/-- The failover-queue cleanup of `Bond::processActiveBackupTasks`:
erase every queued slot that holds a path but is no longer eligible. -/
def abCleanQueue (b : Bond) : Bond :=
  { b with abFailoverQueue :=
      b.abFailoverQueue.filter (fun i => !((b.path i).p.isSome && !(b.path i).eligible)) }

/-- Whether slot `i` is already in the failover queue or is the current
active slot, judged — as the C++ does — by `Path` pointer identity. -/
def abAlreadyQueued (b : Bond) (i : Nat) : Bool :=
  b.abFailoverQueue.any (fun j => (b.path j).p == (b.path i).p)

/-- The queue-insertion tail shared by both queue-building branches of
`Bond::processActiveBackupTasks`: a slot whose path is neither the
current active path nor already queued is pushed on the queue front,
followed by the (literal) `addPathToBond(0, i)` call. -/
def abPushQueue (b : Bond) (i : Nat) : Bond :=
  if (b.path i).p == (b.path b.abPathIdx).p then b
  else if abAlreadyQueued b i then b
  else addPathToBond { b with abFailoverQueue := i :: b.abFailoverQueue } 0 i

/-- The `failoverScoreHandicap` of the user-failover-instructions queue
build: the slot's current (possibly inherited) score plus the preferred
and primary handicaps. -/
def abUserHandicap (acc : Bond) (i : Nat) : Int :=
  (acc.path i).failoverScore
    + (if (acc.path i).preferred then ZT_BOND_FAILOVER_HANDICAP_PREFERRED else 0)
    + (if (((acc.linkOfSlot i).map Link.primary).getD false)
       then ZT_BOND_FAILOVER_HANDICAP_PRIMARY else 0)

/-- `if (!_paths[i].failoverScore) { _paths[i].failoverScore = handicap ?
handicap : allocation; }` of the user queue build. -/
def abUserAssignScore (acc : Bond) (i : Nat) : Bond :=
  if (acc.path i).failoverScore = 0 then
    acc.modPath i (fun s =>
      { s with failoverScore := if abUserHandicap acc i ≠ 0 then abUserHandicap acc i
                                else (s.allocation : Int) })
  else acc

/-- The `failover_to` score inheritance of the user queue build:
every slot on the link named by the `failover_to` of the link of slot
`i` takes the larger of its own score and the inherited `handicap − 10`
(one more subtracted for a non-preferred target). -/
def abUserInherit (acc : Bond) (i : Nat) (handicap : Int) : Bond :=
  match ((acc.linkOfSlot i).bind Link.failoverTo).bind acc.linkById with
  | none => acc
  | some fl =>
    (List.range ZT_MAX_PEER_NETWORK_PATHS).foldl
      (fun ac j =>
        if (ac.path j).p.isSome && ((ac.linkOfSlot j).map Link.id) == some fl.id then
          ac.modPath j (fun s =>
            let inherited := handicap - 10
            let ns := if s.failoverScore > inherited then s.failoverScore else inherited
            { s with failoverScore := if ¬s.preferred then ns - 1 else ns })
        else ac)
      acc

/-- The per-slot body of the user-failover-instructions queue build. -/
def abBuildQueueUserStep (acc : Bond) (i : Nat) : Bond :=
  if !((acc.path i).p.isSome && (acc.path i).allowed && (acc.path i).eligible) then acc
  else abPushQueue (abUserInherit (abUserAssignScore acc i) i (abUserHandicap acc i)) i

/-- The user-failover-instructions queue build of
`Bond::processActiveBackupTasks`: clear all failover scores, then for
each allowed eligible slot compose the preferred/primary handicaps on
top of any inherited score, assign the score (allocation when no
handicap), propagate an inherited score (minus 10, minus 1 more for a
non-preferred target) onto every slot of the link named by
`failover_to`, and queue the slot. -/
def abBuildQueueUser (b : Bond) : Bond :=
  (List.range ZT_MAX_PEER_NETWORK_PATHS).foldl abBuildQueueUserStep
    ((List.range ZT_MAX_PEER_NETWORK_PATHS).foldl
      (fun acc i => if (acc.path i).p.isSome
          then acc.modPath i (fun s => { s with failoverScore := 0 }) else acc) b)

/-- The `failoverScoreHandicap` of the performance queue build: preferred
(30), overridden by primary (20, unless the link-select method is
`optimize`; the `!eligible → −10000` assignment is dead code under the
loop's eligibility guard but kept verbatim), overridden by negotiated
(5000). -/
def abPerfHandicap (acc : Bond) (i : Nat) : Int :=
  if (acc.path i).p == (acc.path acc.negotiatedPathIdx).p
  then ZT_BOND_FAILOVER_HANDICAP_NEGOTIATED
  else if (((acc.linkOfSlot i).map Link.primary).getD false)
      && acc.abLinkSelectMethod ≠ ReselMethod.optimize
  then ZT_BOND_FAILOVER_HANDICAP_PRIMARY
  else if !(acc.path i).eligible then -10000
  else if (acc.path i).preferred then ZT_BOND_FAILOVER_HANDICAP_PREFERRED
  else 0

/-- The per-slot body of the performance queue build: set the slot's
`negotiated` flag, set `failoverScore = allocation + handicap`, and
queue the slot. -/
def abBuildQueuePerfStep (acc : Bond) (i : Nat) : Bond :=
  if !((acc.path i).p.isSome && (acc.path i).allowed && (acc.path i).eligible) then acc
  else
    abPushQueue
      (acc.modPath i (fun s =>
        { s with negotiated := (acc.path i).p == (acc.path acc.negotiatedPathIdx).p,
                 failoverScore := (s.allocation : Int) + abPerfHandicap acc i })) i

/-- The performance queue build of `Bond::processActiveBackupTasks` (no
user failover instructions). -/
def abBuildQueuePerf (b : Bond) : Bond :=
  (List.range ZT_MAX_PEER_NETWORK_PATHS).foldl abBuildQueuePerfStep b

/-- The insertion sort of the failover queue (ascending by raw slot
index, as the C++ insertion sort is). -/
def abSortQueue (b : Bond) : Bond :=
  { b with abFailoverQueue := sortNat b.abFailoverQueue }

/-- The state `Bond::processActiveBackupTasks` has built when it reaches
the reselection logic: initial selection, queue cleanup, queue build
(user instructions or performance) and queue sort. -/
def abPreSwitchState (b : Bond) : Bond :=
  abSortQueue
    ((if (abCleanQueue (abSelectInitial b)).userHasSpecifiedFailoverInstructions
      then abBuildQueueUser else abBuildQueuePerf)
      (abCleanQueue (abSelectInitial b)))

/-- The method-specific switch predicate of
`Bond::processActiveBackupTasks`, evaluated on the pre-switch state:
whether the `always` / `better` / `optimize` reselection block would
dequeue a new active path.  The `optimize` threshold
`(int)(0.10f * allocation)` equals `allocation / 10` for every
`allocation ∈ [0, 255]`. -/
def abSwitchPredicate (b : Bond) (now : Int) : Bool :=
  match b.abLinkSelectMethod with
  | .failure => false
  | .always =>
    match b.abFailoverQueue with
    | [] => false
    | h :: _ =>
      (b.path b.abPathIdx).p.isSome
        && !(((b.linkOfSlot b.abPathIdx).map Link.primary).getD false)
        && (((b.linkOfSlot h).map Link.primary).getD false)
  | .better =>
    match b.abFailoverQueue with
    | [] => false
    | h :: _ =>
      (b.path b.abPathIdx).p.isSome
        && !(((b.linkOfSlot b.abPathIdx).map Link.primary).getD false)
        && (((b.linkOfSlot h).map Link.primary).getD false)
        && decide ((b.path h).failoverScore > (b.path b.abPathIdx).failoverScore)
  | .optimize =>
    match b.abFailoverQueue with
    | [] => false
    | h :: _ =>
      (b.path h).negotiated
        || (decide ((now - b.lastActiveBackupPathChange) > ZT_BOND_OPTIMIZE_INTERVAL)
            && decide ((b.path h).failoverScore - (b.path b.abPathIdx).failoverScore > 0)
            && decide ((b.path h).failoverScore - (b.path b.abPathIdx).failoverScore
                > Int.ofNat ((b.path b.abPathIdx).allocation / 10)))

/-- The reselection tail of `Bond::processActiveBackupTasks`: on an empty
queue return; otherwise perform the implicit failure reselect when the
current slot is no longer eligible, record a path change relative to
`prev` (the active index at function entry), and run the
`always`/`better`/`optimize` block of the configured method. -/
def abSwitchStage (b : Bond) (now : Int) (prev : Nat) : Bond :=
  if b.abFailoverQueue.isEmpty then b
  else
    let b1 := if (b.path b.abPathIdx).p.isSome && !(b.path b.abPathIdx).eligible
      then dequeueNextActiveBackupPath b now else b
    let b2 := if prev ≠ b1.abPathIdx then { b1 with lastActiveBackupPathChange := now } else b1
    match b2.abLinkSelectMethod with
    | .failure => b2
    | .always =>
      match b2.abFailoverQueue with
      | [] => b2
      | h :: _ =>
        if (b2.path b2.abPathIdx).p.isSome
            && !(((b2.linkOfSlot b2.abPathIdx).map Link.primary).getD false)
            && (((b2.linkOfSlot h).map Link.primary).getD false)
        then dequeueNextActiveBackupPath b2 now else b2
    | .better =>
      match b2.abFailoverQueue with
      | [] => b2
      | h :: _ =>
        if (b2.path b2.abPathIdx).p.isSome
            && !(((b2.linkOfSlot b2.abPathIdx).map Link.primary).getD false)
            && (((b2.linkOfSlot h).map Link.primary).getD false)
            && decide ((b2.path h).failoverScore > (b2.path b2.abPathIdx).failoverScore)
        then dequeueNextActiveBackupPath b2 now else b2
    | .optimize =>
      match b2.abFailoverQueue with
      | [] => b2
      | h :: _ =>
        if (b2.path h).negotiated then
          { dequeueNextActiveBackupPath b2 now with lastPathNegotiationCheck := now }
        else if decide ((now - b2.lastActiveBackupPathChange) > ZT_BOND_OPTIMIZE_INTERVAL)
            && decide ((b2.path h).failoverScore - (b2.path b2.abPathIdx).failoverScore > 0)
            && decide ((b2.path h).failoverScore - (b2.path b2.abPathIdx).failoverScore
                > Int.ofNat ((b2.path b2.abPathIdx).allocation / 10))
        then dequeueNextActiveBackupPath b2 now
        else b2

/-- `Bond::processActiveBackupTasks(now)`: select an initial active link
if none is set (returning when that fails), then clean, build and sort
the failover queue and run the reselection logic. -/
def processActiveBackupTasks (b : Bond) (now : Int) : Bond :=
  let prev := b.abPathIdx
  let b1 := abSelectInitial b
  if b1.abPathIdx = ZT_MAX_PEER_NETWORK_PATHS then b1
  else abSwitchStage (abPreSwitchState b) now prev

/-! ## Concrete states used by the witnesses and counterexamples -/

/-- A bonded, eligible slot holding path 10 on link 1. -/
def wslotA : PathSlot :=
  { p := some 10, linkId := 1, eligible := true, bonded := true,
    lastIn := 0, whenNominated := -100000, lastAliveToggle := 0 }

/-- A bonded, eligible slot holding path 20 on link 2. -/
def wslotB : PathSlot :=
  { p := some 20, linkId := 2, eligible := true, bonded := true,
    lastIn := 99999, whenNominated := -100000, lastAliveToggle := 0 }

/-- A `balance-rr` bond with `packetsPerLink = 3`, two bonded paths and a
fresh striping counter (`_rrIdx = 0`, `_rrPacketsSentOnCurrLink = 0`, as
`setBondParameters` initializes them). -/
def rrBond : Bond :=
  { policy := ZT_BOND_POLICY_BALANCE_RR, allowFlowHashing := false, packetsPerLink := 3,
    numBondedPaths := 2, qw := [],
    paths := [wslotA, wslotB] ++ List.replicate 14 emptySlot,
    bondIdxMap := [0, 1] ++ List.replicate 14 ZT_MAX_PEER_NETWORK_PATHS }

/-- The successive `getAppropriatePath(now, NO_FLOW)` results of `n`
calls starting from `b`. -/
def rrTrace (b : Bond) (n : Nat) : List (Option Nat) :=
  ((List.range n).foldl
    (fun st _ =>
      let (r, b1) := getAppropriatePath st.2 0 ZT_QOS_NO_FLOW 0
      (st.1 ++ [r], b1))
    (([] : List (Option Nat)), b)).1

/-- A flow pinned to slot 0 with age 5 at `now = 1000`. -/
def wflow1 : Flow := { id := 1, assignedPath := 0, lastActivity := 995, createdAt := 0 }

/-- A flow pinned to slot 1 with age 10 at `now = 1000` (the oldest). -/
def wflow2 : Flow := { id := 2, assignedPath := 1, lastActivity := 990, createdAt := 0 }

/-- A `balance-xor` bond with two bonded slots and the two flows above. -/
def c6bond : Bond :=
  { policy := ZT_BOND_POLICY_BALANCE_XOR, allowFlowHashing := true, qw := [],
    paths := [{ wslotA with assignedFlowCount := 1 }, { wslotB with assignedFlowCount := 1 }]
      ++ List.replicate 14 emptySlot,
    numBondedPaths := 2, bondIdxMap := [0, 1] ++ List.replicate 14 ZT_MAX_PEER_NETWORK_PATHS,
    flows := [(1, wflow1), (2, wflow2)] }

/-- The same bond with a single flow of age 0 at `now = 1000`. -/
def c6bondFresh : Bond :=
  { c6bond with flows := [(1, { wflow1 with lastActivity := 1000 })],
                paths := [{ wslotA with assignedFlowCount := 1 }, wslotB]
                  ++ List.replicate 14 emptySlot }

/-- Node Y of the tie-break scenario: the local node has the larger
address (2), the peer the smaller (1); equal utilities; path 20 known in
slot 1; negotiation checks have run. -/
def c2bondY : Bond :=
  { policy := ZT_BOND_POLICY_ACTIVE_BACKUP, abLinkSelectMethod := .optimize, qw := [],
    paths := [wslotA, wslotB] ++ List.replicate 14 emptySlot,
    lastPathNegotiationCheck := 5, localUtility := 0, peerId := 1, localNodeId := 2 }

/-- Node X of the tie-break scenario: the local node has the smaller
address (1), the peer the larger (2). -/
def c2bondX : Bond := { c2bondY with peerId := 2, localNodeId := 1 }

/-- The C1 scenario bond: `balance-xor`, two strict-IPv4 links, flow 7
pinned to slot 0, and slot 0 about to lose eligibility at
`now = 100000` (its path has been silent since `lastIn = 0`). -/
def c1bond : Bond :=
  { policy := ZT_BOND_POLICY_BALANCE_XOR, allowFlowHashing := true, qw := [],
    paths := [{ wslotA with assignedFlowCount := 1 }, wslotB] ++ List.replicate 14 emptySlot,
    bondIdxMap := [0, 1] ++ List.replicate 14 ZT_MAX_PEER_NETWORK_PATHS,
    numBondedPaths := 2,
    flows := [(7, { id := 7, assignedPath := 0, lastActivity := 99999, createdAt := 0 })],
    links := [{ id := 1, ipvPref := 4 }, { id := 2, ipvPref := 4 }],
    lastFlowExpirationCheck := 99000 }

/-- The C1 bond after `curateBond(now, false)` at `now = 100000`. -/
def c1curated : Bond := curateBond c1bond 100000 false

/-- The C1 bond after `curateBond` and `processBalanceTasks`. -/
def c1final : Bond := processBalanceTasks c1curated 100000 0

/-- A bond with one nominated path (20, slot 0) for the QoS-map claims. -/
def c5bond : Bond :=
  { policy := ZT_BOND_POLICY_BALANCE_XOR, allowFlowHashing := true, qw := [],
    paths := [wslotB] ++ List.replicate 15 emptySlot, numBondedPaths := 1,
    bondIdxMap := [0] ++ List.replicate 15 ZT_MAX_PEER_NETWORK_PATHS }

/-- `c5bond` after 129 incoming QoS-eligible packets with distinct IDs
(`8k + 1`, so `packetId & (ACK_DIVISOR − 1) ≠ 0`). -/
def c5inAfter : Bond :=
  (List.range 129).foldl
    (fun b k => recordIncomingPacket b 20 (8 * Int.ofNat k + 1) 100 .frame ZT_QOS_NO_FLOW 50)
    c5bond

/-- A bond whose slot 0 has one outstanding QoS record
`(id 5, sent at 1000)`, for the C4 witness (spec scenario 4). -/
def c4wBond : Bond :=
  { c5bond with paths := [{ wslotB with qosStatsOut := [(5, 1000)] }] ++ List.replicate 15 emptySlot }

/-- An active-backup bond (method `failure`) with an eligible active
slot 0 and a second eligible slot, for the C8 witness. -/
def c8wBond : Bond :=
  { policy := ZT_BOND_POLICY_ACTIVE_BACKUP, abLinkSelectMethod := .failure, qw := [],
    abPathIdx := 0,
    paths := [wslotA, wslotB] ++ List.replicate 14 emptySlot,
    links := [{ id := 1 }, { id := 2 }] }

/-! ## Helper lemmas -/

/-- A fold whose body preserves a projection preserves it overall. -/
theorem foldl_preserve {β ι γ : Type} (f : β → γ) (g : β → ι → β)
    (h : ∀ acc i, f (g acc i) = f acc) :
    ∀ (l : List ι) (acc : β), f (l.foldl g acc) = f acc := by
  intro l
  induction l with
  | nil => intro acc; rfl
  | cons x t ih => intro acc; rw [List.foldl_cons, ih, h]

/-- A fold whose body fixes every accumulator is the identity. -/
theorem foldl_fix {β ι : Type} (g : β → ι → β) (l : List ι) (acc : β)
    (h : ∀ x ∈ l, ∀ a : β, g a x = a) : l.foldl g acc = acc := by
  induction l generalizing acc with
  | nil => rfl
  | cons x t ih =>
    rw [List.foldl_cons, h x (List.mem_cons_self x t), ih]
    intro y hy a
    exact h y (List.mem_cons_of_mem x hy) a

theorem path_setPath_self (b : Bond) (i : Nat) (s : PathSlot) (h : i < b.paths.length) :
    (b.setPath i s).path i = s := by
  simp [Bond.setPath, Bond.path, List.getElem?_set_eq_of_lt _ h]

theorem path_setPath_ne (b : Bond) (i j : Nat) (s : PathSlot) (h : i ≠ j) :
    (b.setPath i s).path j = b.path j := by
  simp [Bond.setPath, Bond.path, List.getElem?_set_ne h]

theorem path_modPath (b : Bond) (j : Nat) (f : PathSlot → PathSlot) (i : Nat) :
    (b.modPath j f).path i
      = if i = j ∧ j < b.paths.length then f (b.path j) else b.path i := by
  by_cases hl : j < b.paths.length
  · by_cases hij : i = j
    · subst hij; simp [hl, Bond.modPath, path_setPath_self _ _ _ hl]
    · simp [hij, Bond.modPath, path_setPath_ne _ _ _ _ (Ne.symm hij)]
  · have hset : (b.modPath j f).paths = b.paths := by
      simp [Bond.modPath, Bond.setPath, List.set_eq_of_length_le (Nat.le_of_not_lt hl)]
    have hpe : (b.modPath j f).path i = b.path i := by simp [Bond.path, hset]
    rw [hpe, if_neg (fun h => hl h.2)]

/-- A slot read after `modPath` is the old slot or the updated one. -/
theorem modPath_path_cases (b : Bond) (j : Nat) (f : PathSlot → PathSlot) (i : Nat) :
    (b.modPath j f).path i = b.path i ∨ (b.modPath j f).path i = f (b.path i) := by
  rw [path_modPath]
  split
  · rename_i h; right; rw [h.1]
  · left; rfl

theorem outFlowBytes_paths (b : Bond) (flowId : Int) (plen : Nat) :
    (outFlowBytes b flowId plen).paths = b.paths := by
  unfold outFlowBytes
  split
  · split <;> rfl
  · rfl

theorem outFlowBytes_path (b : Bond) (flowId : Int) (plen : Nat) (i : Nat) :
    (outFlowBytes b flowId plen).path i = b.path i := by
  simp [Bond.path, outFlowBytes_paths]

theorem setLastFrame_path (b : Bond) (now : Int) (i : Nat) :
    (setLastFrame b now).path i = b.path i := rfl

theorem getNominatedPathIdx_lt (b : Bond) (pid : Nat)
    (h : b.getNominatedPathIdx pid ≠ ZT_MAX_PEER_NETWORK_PATHS) :
    b.getNominatedPathIdx pid < ZT_MAX_PEER_NETWORK_PATHS := by
  unfold Bond.getNominatedPathIdx at *
  cases hf : (List.range ZT_MAX_PEER_NETWORK_PATHS).find? (fun i => (b.path i).p == some pid) with
  | none => rw [hf] at h; simp at h
  | some x =>
    simp only [hf, Option.getD_some]
    simpa using List.mem_range.mp (List.mem_of_find?_eq_some hf)

theorem ains_length_le {V : Type} (k : Int) (v : V) (l : List (Int × V)) :
    (ains k v l).length ≤ l.length + 1 := by
  induction l with
  | nil => simp [ains]
  | cons x t ih =>
    simp only [ains]
    split
    · simp
    · split
      · simp
      · simpa using Nat.succ_le_succ ih

theorem aerase_cons_self {V : Type} (k : Int) (v : V) (t : List (Int × V)) :
    aerase k ((k, v) :: t) = t := by simp [aerase]

theorem aerase_append_left {V : Type} (k : Int) (l r : List (Int × V))
    (h : k ∉ l.map Prod.fst) : aerase k (l ++ r) = l ++ aerase k r := by
  induction l with
  | nil => rfl
  | cons x t ih =>
    have hk : ¬(k = x.1) := by
      intro he; exact h (by simp [he])
    show aerase k (x :: (t ++ r)) = x :: (t ++ aerase k r)
    simp only [aerase, if_neg hk]
    exact congrArg (fun z => x :: z) (ih (fun hm => h (List.mem_cons_of_mem _ hm)))

theorem qosOutInsert_le (k v : Int) (s : PathSlot)
    (h : s.qosStatsOut.length ≤ ZT_QOS_MAX_OUTSTANDING_RECORDS) :
    (qosOutInsert k v s).qosStatsOut.length ≤ ZT_QOS_MAX_OUTSTANDING_RECORDS := by
  unfold qosOutInsert
  split
  · rename_i hlt
    have := ains_length_le k v s.qosStatsOut
    simpa using by omega
  · exact h

theorem qosOutInsert_full (k v : Int) (s : PathSlot)
    (h : s.qosStatsOut.length = ZT_QOS_MAX_OUTSTANDING_RECORDS) :
    (qosOutInsert k v s).qosStatsOut = s.qosStatsOut := by
  unfold qosOutInsert
  rw [if_neg (by omega)]

theorem qosOutInsert_congr (k v : Int) (s t : PathSlot) (h : s.qosStatsOut = t.qosStatsOut) :
    (qosOutInsert k v s).qosStatsOut = (qosOutInsert k v t).qosStatsOut := by
  unfold qosOutInsert
  rw [h]
  split <;> first | rfl | exact h

/-- `recordOutgoingCore` either leaves a slot's outstanding map alone or
applies the guarded insertion to it. -/
theorem recordOutgoingCore_qosOut_cases (b : Bond) (pid : Nat) (packetId : Int) (plen : Nat)
    (verb : Verb) (flowId now : Int) (i : Nat) :
    ((recordOutgoingCore b pid packetId plen verb flowId now).path i).qosStatsOut
      = (b.path i).qosStatsOut
    ∨ ((recordOutgoingCore b pid packetId plen verb flowId now).path i).qosStatsOut
      = (qosOutInsert packetId now (b.path i)).qosStatsOut := by
  simp only [recordOutgoingCore]
  split
  · split
    · left; rfl
    · rw [outFlowBytes_path]
      generalize hb1 : (if isFrameVerb verb = true
        then setLastFrame (b.modPath (b.getNominatedPathIdx pid)
          (fun s => { s with packetsOut := s.packetsOut + 1 })) now
        else b) = b1
      have hq1 : ∀ j, (b1.path j).qosStatsOut = (b.path j).qosStatsOut := by
        intro j
        rw [← hb1]
        split
        · rw [setLastFrame_path]
          rcases modPath_path_cases b (b.getNominatedPathIdx pid)
            (fun s => { s with packetsOut := s.packetsOut + 1 }) j with h | h
          · rw [h]
          · rw [h]
        · rfl
      split
      · rcases modPath_path_cases b1 (b.getNominatedPathIdx pid) (qosOutInsert packetId now) i
          with h | h
        · left; rw [h, hq1]
        · right; rw [h, qosOutInsert_congr _ _ _ _ (hq1 i)]
      · left; exact hq1 i
  · left; rw [outFlowBytes_path]

theorem forgetFlowsAge_body_flows (age now : Int) :
    ∀ (l : List (Int × Flow)) (acc : Bond),
      (l.foldl (fun acc kv =>
        if kv.2.age now > age then
          let acc1 := acc.decFlowCount kv.2.assignedPath
          { acc1 with flows := aerase kv.1 acc1.flows }
        else acc) acc).flows
      = l.foldl (ageStep age now) acc.flows := by
  intro l
  induction l with
  | nil => intro acc; rfl
  | cons kv t ih =>
    intro acc
    rw [List.foldl_cons, List.foldl_cons, ih]
    congr 1
    rw [ageStep, apply_ite Bond.flows]
    split <;> rfl

theorem forgetFlowsAge_flows_fold (b : Bond) (age now : Int) :
    (forgetFlowsAge b age now).flows = b.flows.foldl (ageStep age now) b.flows := by
  unfold forgetFlowsAge
  exact forgetFlowsAge_body_flows age now b.flows b

theorem foldl_ageStep_filter (age now : Int) :
    ∀ (l2 l1 : List (Int × Flow)), ((l1 ++ l2).map Prod.fst).Nodup →
      l2.foldl (ageStep age now) (l1 ++ l2)
        = l1 ++ l2.filter (fun kv => !decide (kv.2.age now > age)) := by
  intro l2
  induction l2 with
  | nil => intro l1 _; simp
  | cons kv t ih =>
    intro l1 hnd
    have hk1 : kv.1 ∉ l1.map Prod.fst := by
      intro hmem
      rw [List.map_append] at hnd
      rcases List.nodup_append.mp hnd with ⟨_, _, hdisj⟩
      exact hdisj hmem (by simp)
    rw [List.foldl_cons]
    by_cases hp : kv.2.age now > age
    · rw [ageStep, if_pos hp, aerase_append_left kv.1 l1 (kv :: t) hk1, aerase_cons_self]
      have hnd2 : ((l1 ++ t).map Prod.fst).Nodup := by
        rw [List.map_append] at hnd ⊢
        rcases List.nodup_append.mp hnd with ⟨h1, h2, hdisj⟩
        exact List.nodup_append.mpr ⟨h1, (List.nodup_cons.mp (by simpa using h2)).2,
          fun a ha hb => hdisj ha (by simp [hb])⟩
      rw [ih l1 hnd2, List.filter_cons, if_neg (by simpa using hp)]
    · rw [ageStep, if_neg hp]
      have hres : l1 ++ kv :: t = (l1 ++ [kv]) ++ t := by simp
      rw [hres]
      have hnd2 : (((l1 ++ [kv]) ++ t).map Prod.fst).Nodup := by
        rw [← hres]; exact hnd
      rw [ih (l1 ++ [kv]) hnd2, List.filter_cons, if_pos (by simpa using hp)]
      simp

/-- With distinct keys, the age-eviction loop keeps exactly the flows
whose age does not exceed the threshold. -/
theorem forgetFlowsAge_flows_filter (b : Bond) (age now : Int)
    (hnd : (b.flows.map Prod.fst).Nodup) :
    (forgetFlowsAge b age now).flows
      = b.flows.filter (fun kv => !decide (kv.2.age now > age)) := by
  rw [forgetFlowsAge_flows_fold]
  have := foldl_ageStep_filter age now b.flows []
  simpa using this (by simpa using hnd)

theorem forgetFlowsAge_idem (b : Bond) (age now : Int)
    (hnd : (b.flows.map Prod.fst).Nodup) :
    forgetFlowsAge (forgetFlowsAge b age now) age now = forgetFlowsAge b age now := by
  have hall : ∀ kv ∈ (forgetFlowsAge b age now).flows, ¬(kv.2.age now > age) := by
    intro kv hm
    rw [forgetFlowsAge_flows_filter b age now hnd] at hm
    have := List.of_mem_filter hm
    simpa using this
  conv_lhs => rw [forgetFlowsAge]
  exact foldl_fix _ _ _ (fun kv hm a => by rw [if_neg (hall kv hm)])

theorem abPushQueue_abPathIdx (b : Bond) (i : Nat) :
    (abPushQueue b i).abPathIdx = b.abPathIdx := by
  unfold abPushQueue
  split
  · rfl
  · split
    · rfl
    · rfl

theorem abUserAssignScore_abPathIdx (b : Bond) (i : Nat) :
    (abUserAssignScore b i).abPathIdx = b.abPathIdx := by
  unfold abUserAssignScore
  split <;> rfl

theorem abUserInherit_abPathIdx (b : Bond) (i : Nat) (h2 : Int) :
    (abUserInherit b i h2).abPathIdx = b.abPathIdx := by
  unfold abUserInherit
  split
  · rfl
  · exact foldl_preserve Bond.abPathIdx _ (fun a j => by dsimp only; split <;> rfl) _ _

theorem abBuildQueueUser_abPathIdx (b : Bond) :
    (abBuildQueueUser b).abPathIdx = b.abPathIdx := by
  unfold abBuildQueueUser
  refine (foldl_preserve Bond.abPathIdx _ ?_ _ _).trans
    (foldl_preserve Bond.abPathIdx _ ?_ _ _)
  · intro acc i
    unfold abBuildQueueUserStep
    split
    · rfl
    · rw [abPushQueue_abPathIdx, abUserInherit_abPathIdx, abUserAssignScore_abPathIdx]
  · intro acc i
    dsimp only
    split
    · rfl
    · rfl

theorem abBuildQueuePerf_abPathIdx (b : Bond) :
    (abBuildQueuePerf b).abPathIdx = b.abPathIdx := by
  unfold abBuildQueuePerf
  refine foldl_preserve Bond.abPathIdx _ ?_ _ _
  intro acc i
  unfold abBuildQueuePerfStep
  split
  · rfl
  · rw [abPushQueue_abPathIdx]; rfl

theorem abSelectInitial_of_set (b : Bond) (h : b.abPathIdx ≠ ZT_MAX_PEER_NETWORK_PATHS) :
    abSelectInitial b = b := by
  unfold abSelectInitial
  rw [if_pos h]

theorem abPreSwitchState_abPathIdx (b : Bond) (h : b.abPathIdx ≠ ZT_MAX_PEER_NETWORK_PATHS) :
    (abPreSwitchState b).abPathIdx = b.abPathIdx := by
  unfold abPreSwitchState abSortQueue abCleanQueue
  rw [abSelectInitial_of_set b h]
  split
  · rw [abBuildQueueUser_abPathIdx]
  · rw [abBuildQueuePerf_abPathIdx]

/-- When the current slot is eligible and the method predicate is false,
the reselection tail keeps the active index. -/
theorem abSwitchStage_stable (d : Bond) (now : Int)
    (he : (d.path d.abPathIdx).eligible = true)
    (hp : abSwitchPredicate d now = false) :
    (abSwitchStage d now d.abPathIdx).abPathIdx = d.abPathIdx := by
  unfold abSwitchStage
  cases hq : d.abFailoverQueue with
  | nil => simp
  | cons h t =>
    simp only [hq, List.isEmpty_cons, Bool.false_eq_true, if_false]
    rw [he]
    simp only [Bool.not_true, Bool.and_false, Bool.false_eq_true, if_false, ne_eq,
      not_true_eq_false, if_false]
    cases hm : d.abLinkSelectMethod with
    | failure => rfl
    | always =>
      have hp1 : ((d.path d.abPathIdx).p.isSome
          && !(((d.linkOfSlot d.abPathIdx).map Link.primary).getD false)
          && (((d.linkOfSlot h).map Link.primary).getD false)) = false := by
        have h2 := hp
        unfold abSwitchPredicate at h2
        rw [hm, hq] at h2
        exact h2
      simp only [hq, hp1, Bool.false_eq_true, if_false]
    | better =>
      have hp1 : ((d.path d.abPathIdx).p.isSome
          && !(((d.linkOfSlot d.abPathIdx).map Link.primary).getD false)
          && (((d.linkOfSlot h).map Link.primary).getD false)
          && decide ((d.path h).failoverScore > (d.path d.abPathIdx).failoverScore)) = false := by
        have h2 := hp
        unfold abSwitchPredicate at h2
        rw [hm, hq] at h2
        exact h2
      simp only [hq, hp1, Bool.false_eq_true, if_false]
    | optimize =>
      have hp1 : ((d.path h).negotiated
          || (decide ((now - d.lastActiveBackupPathChange) > ZT_BOND_OPTIMIZE_INTERVAL)
              && decide ((d.path h).failoverScore - (d.path d.abPathIdx).failoverScore > 0)
              && decide ((d.path h).failoverScore - (d.path d.abPathIdx).failoverScore
                  > Int.ofNat ((d.path d.abPathIdx).allocation / 10)))) = false := by
        have h2 := hp
        unfold abSwitchPredicate at h2
        rw [hm, hq] at h2
        exact h2
      have hneg : (d.path h).negotiated = false := by
        cases hn : (d.path h).negotiated
        · rfl
        · rw [hn] at hp1; simp at hp1
      have hcond : (decide ((now - d.lastActiveBackupPathChange) > ZT_BOND_OPTIMIZE_INTERVAL)
          && decide ((d.path h).failoverScore - (d.path d.abPathIdx).failoverScore > 0)
          && decide ((d.path h).failoverScore - (d.path d.abPathIdx).failoverScore
              > Int.ofNat ((d.path d.abPathIdx).allocation / 10))) = false := by
        rw [hneg] at hp1
        simpa using hp1
      simp only [hq, hneg, hcond, Bool.false_eq_true, if_false]

/-! ## The claims -/

/-- C1: the spec (and the code's own log line) says that when a bonded
slot loses eligibility under a flow-hashing policy, `curateBond` sets
`shouldReallocateFlows` so that the next `processBalanceTasks`
re-assigns every flow pinned to the dead slot.  The code assigns
`shouldReallocateFlows = _paths[i].bonded` after having just cleared
`bonded`, so the flag is always false and the flows stay pinned: at the
concrete failing input, slot 0 loses eligibility and its bonded flag,
yet `shouldReallocateFlows` stays false, flow 7 remains assigned to the
dead slot 0 and the assigned-flow counts are unchanged (the claim
expects the dead slot to end with 0 flows). -/
theorem c1_curate_clears_reallocate_flag :
    ((c1bond.path 0).bonded = true ∧ (c1bond.path 0).eligible = true)
    ∧ (c1curated.path 0).eligible = false
    ∧ (c1curated.path 0).bonded = false
    ∧ (c1curated.path 0).shouldReallocateFlows = false
    ∧ (alook 7 c1final.flows).map Flow.assignedPath = some 0
    ∧ (c1final.path 0).assignedFlowCount = 1
    ∧ (c1final.path 1).assignedFlowCount = 0
    ∧ (c1final.path 0).eligible = false ∧ (c1final.path 0).shouldReallocateFlows = false := by
  decide

/-- C2 counterexample: the claim says the peer with the larger identity
yields on an equal-utility PATH_NEGOTIATION_REQUEST.  At node Y (local
address 2, peer X = 1, equal utilities, request on known path 20 in
slot 1) the claim expects `negotiated_path_idx` to become 1, but the
code leaves it unchanged; the smaller node X performs the update
instead. -/
theorem c2_counterexample :
    c2bondY.localNodeId > c2bondY.peerId
    ∧ (processIncomingPathNegotiationRequest c2bondY 20 0).negotiatedPathIdx
        = c2bondY.negotiatedPathIdx
    ∧ c2bondY.negotiatedPathIdx ≠ 1
    ∧ c2bondY.getNominatedPathIdx 20 = 1
    ∧ (processIncomingPathNegotiationRequest c2bondX 20 0).negotiatedPathIdx = 1 := by
  decide

/-- C2 (amended): on an equal-utility request received on a known path
(under the `optimize` method, once negotiation checks have run), the tie
is broken by numeric peer address with the SMALLER address yielding: the
node whose own address is less than the peer's sets
`negotiated_path_idx` to the slot of the path the request arrived on,
and the node with the larger address leaves its choice unchanged. -/
theorem c2_tiebreak_smaller_yields (b : Bond) (pid : Nat) (ru : Int)
    (hm : b.abLinkSelectMethod = ReselMethod.optimize)
    (hidx : b.getNominatedPathIdx pid ≠ ZT_MAX_PEER_NETWORK_PATHS)
    (hchk : b.lastPathNegotiationCheck ≠ 0)
    (heq : ru = b.localUtility) :
    (processIncomingPathNegotiationRequest b pid ru).negotiatedPathIdx
      = if b.localNodeId < b.peerId then b.getNominatedPathIdx pid
        else b.negotiatedPathIdx := by
  simp only [processIncomingPathNegotiationRequest, hm, ne_eq, not_true_eq_false, if_false,
    if_neg hidx, if_neg hchk, heq, lt_irrefl, if_neg (lt_irrefl b.localUtility)]
  by_cases hp : b.localNodeId < b.peerId
  · rw [if_pos hp, if_pos hp]
  · rw [if_neg hp, if_neg hp]

/-- Witness for C2: the amended statement at both concrete nodes. -/
theorem c2_tiebreak_smaller_yields_witness :
    ((processIncomingPathNegotiationRequest c2bondX 20 0).negotiatedPathIdx
      = if c2bondX.localNodeId < c2bondX.peerId then c2bondX.getNominatedPathIdx 20
        else c2bondX.negotiatedPathIdx)
    ∧ ((processIncomingPathNegotiationRequest c2bondY 20 0).negotiatedPathIdx
      = if c2bondY.localNodeId < c2bondY.peerId then c2bondY.getNominatedPathIdx 20
        else c2bondY.negotiatedPathIdx) :=
  ⟨c2_tiebreak_smaller_yields c2bondX 20 0 rfl (by decide) (by decide) rfl,
   c2_tiebreak_smaller_yields c2bondY 20 0 rfl (by decide) (by decide) rfl⟩

/-- C3: `setBondParameters` stores the (sanitized) process-wide default
policy whenever the requested policy code is in the valid range
(active-backup … balance-aware) and `ZT_BOND_POLICY_NONE` otherwise —
never the requested code itself (unless it happens to equal the
default).  The template overlay does not touch the stored policy. -/
theorem c3_policy_set_to_default (policy defaultPolicy : Int) (tb : Option Bond) :
    (setBondParameters policy defaultPolicy tb).policy =
      if ZT_BOND_POLICY_ACTIVE_BACKUP ≤ policy ∧ policy ≤ ZT_BOND_POLICY_BALANCE_AWARE then
        (if ZT_BOND_POLICY_ACTIVE_BACKUP ≤ defaultPolicy
            ∧ defaultPolicy ≤ ZT_BOND_POLICY_BALANCE_AWARE
         then defaultPolicy else ZT_BOND_POLICY_NONE)
      else ZT_BOND_POLICY_NONE := by
  cases tb <;>
    simp only [setBondParameters, ZT_BOND_POLICY_NONE, ZT_BOND_POLICY_ACTIVE_BACKUP,
      ZT_BOND_POLICY_BALANCE_AWARE] <;>
    split_ifs <;> first | rfl | omega

/-- C4: for a record `(id, hold)` of a QOS_MEASUREMENT received on a
nominated path, a matching outstanding entry (sent at `sent`, with
`now − sent` representable in 16 bits) yields exactly one appended
latency sample equal to `((now − sent) − hold) / 2` (C++ truncating
division) and the entry is erased; with no matching entry the samples
and the outstanding map are untouched. -/
theorem c4_qos_latency_sample (b : Bond) (pid : Nat) (now hold id : Int)
    (hlen : b.paths.length = ZT_MAX_PEER_NETWORK_PATHS)
    (hidx : b.getNominatedPathIdx pid ≠ ZT_MAX_PEER_NETWORK_PATHS) :
    (∀ sent, alook id (b.path (b.getNominatedPathIdx pid)).qosStatsOut = some sent →
        0 ≤ now - sent → now - sent < 65536 →
        ((receivedQoS b pid now [(id, hold)]).path (b.getNominatedPathIdx pid)).latencySamples
          = (b.path (b.getNominatedPathIdx pid)).latencySamples
            ++ [Int.tdiv (now - sent - hold) 2]
        ∧ ((receivedQoS b pid now [(id, hold)]).path (b.getNominatedPathIdx pid)).qosStatsOut
          = aerase id (b.path (b.getNominatedPathIdx pid)).qosStatsOut)
    ∧ (alook id (b.path (b.getNominatedPathIdx pid)).qosStatsOut = none →
        ((receivedQoS b pid now [(id, hold)]).path (b.getNominatedPathIdx pid)).latencySamples
          = (b.path (b.getNominatedPathIdx pid)).latencySamples
        ∧ ((receivedQoS b pid now [(id, hold)]).path (b.getNominatedPathIdx pid)).qosStatsOut
          = (b.path (b.getNominatedPathIdx pid)).qosStatsOut) := by
  have hlt : b.getNominatedPathIdx pid < ZT_MAX_PEER_NETWORK_PATHS :=
    getNominatedPathIdx_lt b pid hidx
  have hlt2 : b.getNominatedPathIdx pid < b.paths.length := by rw [hlen]; exact hlt
  constructor
  · intro sent hs h0 h65
    have hmod : (now - sent) % 65536 = now - sent := Int.emod_eq_of_lt h0 h65
    constructor <;>
      simp only [receivedQoS, if_neg hidx, List.foldl, receivedQoSRecord, hs,
        path_setPath_self _ _ _ hlt2, hmod]
  · intro hs
    constructor <;>
      simp only [receivedQoS, if_neg hidx, List.foldl, receivedQoSRecord, hs,
        path_setPath_self _ _ _ hlt2]

/-- Witness for C4: spec scenario 4 — packet 5 sent at 1000 ms,
acknowledged at 1040 ms with 10 ms holding time gives the single
sample `(40 − 10) / 2 = 15`. -/
theorem c4_witness :
    (∀ sent, alook 5 (c4wBond.path (c4wBond.getNominatedPathIdx 20)).qosStatsOut = some sent →
        0 ≤ 1040 - sent → 1040 - sent < 65536 →
        ((receivedQoS c4wBond 20 1040 [(5, 10)]).path
            (c4wBond.getNominatedPathIdx 20)).latencySamples
          = (c4wBond.path (c4wBond.getNominatedPathIdx 20)).latencySamples
            ++ [Int.tdiv (1040 - sent - 10) 2]
        ∧ ((receivedQoS c4wBond 20 1040 [(5, 10)]).path
            (c4wBond.getNominatedPathIdx 20)).qosStatsOut
          = aerase 5 (c4wBond.path (c4wBond.getNominatedPathIdx 20)).qosStatsOut)
    ∧ (alook 5 (c4wBond.path (c4wBond.getNominatedPathIdx 20)).qosStatsOut = none →
        ((receivedQoS c4wBond 20 1040 [(5, 10)]).path
            (c4wBond.getNominatedPathIdx 20)).latencySamples
          = (c4wBond.path (c4wBond.getNominatedPathIdx 20)).latencySamples
        ∧ ((receivedQoS c4wBond 20 1040 [(5, 10)]).path
            (c4wBond.getNominatedPathIdx 20)).qosStatsOut
          = (c4wBond.path (c4wBond.getNominatedPathIdx 20)).qosStatsOut) :=
  c4_qos_latency_sample c4wBond 20 1040 10 5 (by decide) (by decide)

set_option maxRecDepth 1000000 in
/-- C5 counterexample: the claim bounds both QoS maps at
`MAX_OUTSTANDING = 128`, but `recordIncomingPacket` inserts into
`qosStatsIn` without any bound check: 129 incoming packets with distinct
QoS-eligible IDs leave 129 entries in the inbound map. -/
theorem c5_qos_in_unbounded_counterexample :
    ZT_QOS_MAX_OUTSTANDING_RECORDS < (c5inAfter.path 0).qosStatsIn.length
    ∧ (c5inAfter.path 0).qosStatsIn.length = 129 := by
  decide

/-- C5 (amended): the outstanding-ack map `qosStatsOut` holds at most
`MAX_OUTSTANDING = 128` entries across any `recordOutgoingPacket` call;
when it is full, the new packet ID is simply not recorded and the map is
left unchanged (the inbound map `qosStatsIn` has no such bound). -/
theorem c5_qos_out_bounded (b : Bond) (pid : Nat) (packetId : Int) (plen : Nat)
    (verb : Verb) (flowId now : Int) (i : Nat)
    (hb : (b.path i).qosStatsOut.length ≤ ZT_QOS_MAX_OUTSTANDING_RECORDS) :
    ((recordOutgoingPacket b pid packetId plen verb flowId now).path i).qosStatsOut.length
      ≤ ZT_QOS_MAX_OUTSTANDING_RECORDS
    ∧ ((b.path i).qosStatsOut.length = ZT_QOS_MAX_OUTSTANDING_RECORDS →
       ((recordOutgoingPacket b pid packetId plen verb flowId now).path i).qosStatsOut
         = (b.path i).qosStatsOut) := by
  have hbp : ∀ j : Nat, (bumpFreeRandomByte b packetId).path j = b.path j := fun j => rfl
  have hc := recordOutgoingCore_qosOut_cases (bumpFreeRandomByte b packetId) pid packetId plen
    verb flowId now i
  rw [hbp] at hc
  unfold recordOutgoingPacket
  rcases hc with h | h
  · rw [h]
    exact ⟨hb, fun _ => rfl⟩
  · rw [h]
    exact ⟨qosOutInsert_le _ _ _ hb, fun hf => qosOutInsert_full _ _ _ hf⟩

/-- Witness for C5: one outgoing QoS-eligible packet on the concrete
one-path bond respects the bound. -/
theorem c5_qos_out_bounded_witness :
    ((recordOutgoingPacket c5bond 20 1 100 Verb.frame ZT_QOS_NO_FLOW 50).path 0).qosStatsOut.length
      ≤ ZT_QOS_MAX_OUTSTANDING_RECORDS
    ∧ ((c5bond.path 0).qosStatsOut.length = ZT_QOS_MAX_OUTSTANDING_RECORDS →
       ((recordOutgoingPacket c5bond 20 1 100 Verb.frame ZT_QOS_NO_FLOW 50).path 0).qosStatsOut
         = (c5bond.path 0).qosStatsOut) :=
  c5_qos_out_bounded c5bond 20 1 100 Verb.frame ZT_QOS_NO_FLOW 50 0 (by decide)

/-- C6: the claim (and the log line "forget oldest flow") says
`forget_flows(0, oldest=true, now)` on a non-empty table evicts exactly
the flow with the greatest age.  The scan updates `maxAge` to
`now − age(now)` (a timestamp) instead of the age, so on the concrete
input with flows 1 (age 5) and 2 (age 10) it evicts flow 1 and keeps
the oldest flow 2; and with a single flow of age 0 it evicts nothing at
all. -/
theorem c6_forget_oldest_wrong_flow :
    ((alook 2 c6bond.flows).map (fun f => f.age 1000) = some 10
      ∧ (alook 1 c6bond.flows).map (fun f => f.age 1000) = some 5)
    ∧ (forgetFlowsWhenNecessary c6bond 0 true 1000).flows.map Prod.fst = [2]
    ∧ ((forgetFlowsWhenNecessary c6bond 0 true 1000).path 0).assignedFlowCount = 0
    ∧ ((forgetFlowsWhenNecessary c6bond 0 true 1000).path 1).assignedFlowCount = 1
    ∧ (forgetFlowsWhenNecessary c6bondFresh 0 true 1000).flows.map Prod.fst = [1] := by
  decide

/-- C7: under `balance-rr` with flow hashing disabled,
`packets_per_link = 3` and two bonded paths, six successive
`getAppropriatePath(NO_FLOW)` calls from a fresh striping counter return
the pattern `[p0, p0, p0, p1, p1, p1]` (the counter reaches
`packets_per_link` before `rr_idx` advances to the next eligible bonded
slot, modularly). -/
theorem c7_balance_rr_striping :
    rrTrace rrBond 6 = [some 10, some 10, some 10, some 20, some 20, some 20] := by
  decide

/-- C8: under active-backup with any link-select method, when the current
slot is eligible at the reselection point and the method's switch
predicate (on the cleaned, rebuilt and sorted failover queue) is false,
`processActiveBackupTasks` leaves `ab_path_idx` unchanged. -/
theorem c8_ab_no_switch_stable (b : Bond) (now : Int)
    (h1 : b.abPathIdx ≠ ZT_MAX_PEER_NETWORK_PATHS)
    (h2 : ((abPreSwitchState b).path (abPreSwitchState b).abPathIdx).eligible = true)
    (h3 : abSwitchPredicate (abPreSwitchState b) now = false) :
    (processActiveBackupTasks b now).abPathIdx = b.abPathIdx := by
  have hpre : (abPreSwitchState b).abPathIdx = b.abPathIdx := abPreSwitchState_abPathIdx b h1
  unfold processActiveBackupTasks
  rw [abSelectInitial_of_set b h1, if_neg h1]
  have hst := abSwitchStage_stable (abPreSwitchState b) now h2 h3
  rw [hpre] at hst
  exact hst

/-- Witness for C8: a concrete two-path `failure`-method bond with an
eligible active slot keeps `ab_path_idx = 0` across a background tick. -/
theorem c8_ab_no_switch_stable_witness :
    (processActiveBackupTasks c8wBond 0).abPathIdx = c8wBond.abPathIdx :=
  c8_ab_no_switch_stable c8wBond 0 (by decide) (by decide) (by decide)

/-- C9: `setUserQualityWeights` replaces the quality-weight vector iff
given exactly `ZT_QOS_WEIGHT_SIZE = 6` weights whose sum is within the
tolerance around 1 (strictly between 0.99 and 1.01); any other input
leaves the bond — in particular the previous weights — unchanged. -/
theorem c9_quality_weights_guard (b : Bond) (w : List ℚ) :
    setUserQualityWeights b w =
      if w.length = ZT_QOS_WEIGHT_SIZE ∧ 99/100 < w.sum ∧ w.sum < 101/100
      then { b with qw := w } else b := by
  simp only [setUserQualityWeights]
  split_ifs with h1 h2 h3 <;> first | rfl | (exfalso; tauto)

/-- C10 counterexample: the claim says `forget_flows` is idempotent for
every argument combination, but with `age = 0` and `oldest = true` each
call evicts one more flow: on the two-flow bond the first call leaves
one flow and the second call empties the table. -/
theorem c10_counterexample :
    forgetFlowsWhenNecessary (forgetFlowsWhenNecessary c6bond 0 true 1000) 0 true 1000
      ≠ forgetFlowsWhenNecessary c6bond 0 true 1000
    ∧ (forgetFlowsWhenNecessary (forgetFlowsWhenNecessary c6bond 0 true 1000) 0 true
        1000).flows.length = 0
    ∧ (forgetFlowsWhenNecessary c6bond 0 true 1000).flows.length = 1 := by
  decide

/-- C10 (amended): with distinct flow keys, calling
`forget_flows(age, oldest, now)` twice leaves the bond in the same state
as calling it once whenever `age ≠ 0` (the age-driven eviction the
balance timer uses) or `oldest = false` (a no-op); the single-oldest
mode (`age = 0`, `oldest = true`) is not idempotent. -/
theorem c10_forget_flows_idempotent (b : Bond) (age now : Int) (oldest : Bool)
    (hnd : (b.flows.map Prod.fst).Nodup) (hcase : age ≠ 0 ∨ oldest = false) :
    forgetFlowsWhenNecessary (forgetFlowsWhenNecessary b age oldest now) age oldest now
      = forgetFlowsWhenNecessary b age oldest now := by
  by_cases ha : age = 0
  · have ho : oldest = false := by
      rcases hcase with h | h
      · exact absurd ha h
      · exact h
    subst ho
    unfold forgetFlowsWhenNecessary
    simp [ha]
  · unfold forgetFlowsWhenNecessary
    rw [if_pos ha, if_pos ha]
    exact forgetFlowsAge_idem b age now hnd

/-- Witness for C10: the age-driven eviction on the two-flow bond is
idempotent. -/
theorem c10_forget_flows_idempotent_witness :
    forgetFlowsWhenNecessary (forgetFlowsWhenNecessary c6bond 1 false 1000) 1 false 1000
      = forgetFlowsWhenNecessary c6bond 1 false 1000 :=
  c10_forget_flows_idempotent c6bond 1 1000 false (by decide) (Or.inl (by decide))

end BondSpec
